import Mathlib

/-!
Shallow embedding of the EV Market Insights dashboard (`src/app.py`).

The dashboard is a linear script over two in-memory tables: geographic
EV-sales predictions (`geo`, one row per ZIP code) and buyer-concern
sentiment (`concerns`).  The logical core embedded here is:

* the state/city filter over both tables (app.py lines 39-43 and 102-106);
* the cascading city-option list (app.py lines 29-33);
* the summary metrics (app.py lines 46-48);
* the top-K table sorted descending by predicted sales (app.py lines 81-83);
* the concern group-by aggregate (app.py lines 108-111);
* the four rule-based recommendations plus fallback (app.py lines 122-135).

Numeric columns are modelled as exact rationals (the data and thresholds in
play are far from any binary floating-point knife edge).  Python `int(x)`
truncates toward zero and raises `ValueError` on `NaN`; a mean over an empty
table is `NaN` in pandas, so the two mean metrics are modelled as `Option`
values that are `none` exactly on an empty filtered table.
-/

/-- Python `int(...)` applied to a (non-`NaN`) rational: truncation toward
zero, computed with natural-number division. -/
def pyInt (q : ℚ) : ℤ :=
  if q < 0 then -((((-q).num.toNat / (-q).den : ℕ)) : ℤ)
  else (((q.num.toNat / q.den : ℕ)) : ℤ)

/-- Arithmetic mean of a list of rationals (`Series.mean`); meaningful only
on nonempty lists — pandas yields `NaN` on an empty series, which callers of
this definition guard for explicitly. -/
def listMean (l : List ℚ) : ℚ := l.sum / (l.length : ℚ)

/-- One row of `ev_geo_data.csv` (app.py line 11): columns
`zip, city, state, lat, lon, population, median_income, charging_stations,
ev_share, predicted_ev_sales_next_12m`. -/
structure GeoRecord where
  zip : String
  city : String
  state : String
  lat : ℚ
  lon : ℚ
  population : ℤ
  median_income : ℚ
  charging_stations : ℚ
  ev_share : ℚ
  predicted_ev_sales_next_12m : ℚ
deriving DecidableEq, Repr

/-- One row of `ev_concerns_sample.csv` (app.py line 12): columns
`state, city, concern, mention_count, avg_sentiment`. -/
structure ConcernRecord where
  state : String
  city : String
  concern : String
  mention_count : ℤ
  avg_sentiment : ℚ
deriving DecidableEq, Repr

/-- The geo filter, app.py lines 39-43:
`df = geo.copy(); if state != "ALL": df = df[df["state"] == state];
if city != "ALL": df = df[df["city"] == city]`. -/
def filterRecords (geo : List GeoRecord) (state city : String) : List GeoRecord :=
  let df := geo
  let df := if state ≠ "ALL" then df.filter (fun r => r.state == state) else df
  let df := if city ≠ "ALL" then df.filter (fun r => r.city == city) else df
  df

/-- The concerns filter, app.py lines 102-106 (same shape as the geo
filter, applied to the concerns table). -/
def filterConcerns (concerns : List ConcernRecord) (state city : String) :
    List ConcernRecord :=
  let conc := concerns
  let conc := if state ≠ "ALL" then conc.filter (fun r => r.state == state) else conc
  let conc := if city ≠ "ALL" then conc.filter (fun r => r.city == city) else conc
  conc

/-- The cascading city options, app.py lines 29-32:
`sorted(geo[geo['state'] == state]['city'].unique())` when a concrete state
is selected, else `sorted(geo['city'].unique())`.  `unique` keeps distinct
values; `sorted` orders them ascending. -/
def city_options_raw (geo : List GeoRecord) (state : String) : List String :=
  if state ≠ "ALL" then
    List.insertionSort (· ≤ ·) ((geo.filter (fun r => r.state == state)).map (fun r => r.city)).dedup
  else
    List.insertionSort (· ≤ ·) ((geo.map (fun r => r.city)).dedup)

/-- Row ordering used by `sort_values("predicted_ev_sales_next_12m",
ascending=False)` (app.py line 83): `a` may precede `b` when `b`'s predicted
sales do not exceed `a`'s. -/
def salesDesc (a b : GeoRecord) : Prop :=
  b.predicted_ev_sales_next_12m ≤ a.predicted_ev_sales_next_12m

instance : DecidableRel salesDesc := fun a b =>
  inferInstanceAs (Decidable (_ ≤ _))

instance : IsTotal GeoRecord salesDesc :=
  ⟨fun a b => le_total b.predicted_ev_sales_next_12m a.predicted_ev_sales_next_12m⟩

instance : IsTrans GeoRecord salesDesc :=
  ⟨fun _ _ _ h1 h2 => le_trans h2 h1⟩

/-- The top-K table, app.py lines 82-83: sort descending by predicted sales
and keep the first `top_k` rows.  The column projection and renaming on
lines 82-88 is presentational and keeps the whole record here.  Note:
`sort_values` is called with its default `kind="quicksort"`, which fixes
only the ordering of the keys; this embedding realises the tie order of a
stable sort (see the discussion on claim C2). -/
def top_df (df : List GeoRecord) (k : ℕ) : List GeoRecord :=
  (List.insertionSort salesDesc df).take k

/-- app.py line 46: `int(df["predicted_ev_sales_next_12m"].sum())`.  The sum
of an empty series is `0`, so this is total. -/
def total_pred_sales (df : List GeoRecord) : ℤ :=
  pyInt ((df.map (fun r => r.predicted_ev_sales_next_12m)).sum)

/-- app.py line 47: `int(df["median_income"].mean())`.  On an empty filtered
table the mean is `NaN` and `int(NaN)` raises `ValueError`, modelled as
`none`. -/
def avg_income (df : List GeoRecord) : Option ℤ :=
  if df = [] then none
  else some (pyInt (listMean (df.map (fun r => r.median_income))))

/-- app.py line 48: `int(df["charging_stations"].mean())`; same empty-table
failure as `avg_income`. -/
def avg_stations (df : List GeoRecord) : Option ℤ :=
  if df = [] then none
  else some (pyInt (listMean (df.map (fun r => r.charging_stations))))

/-- One output row of the concern aggregate (app.py lines 108-111). -/
structure ConcernAgg where
  concern : String
  mention_count : ℤ
  avg_sentiment : ℚ
deriving DecidableEq, Repr

/-- Row ordering used by `sort_values("mention_count", ascending=False)`
(app.py line 111). -/
def mentionDesc (a b : ConcernAgg) : Prop :=
  b.mention_count ≤ a.mention_count

instance : DecidableRel mentionDesc := fun a b =>
  inferInstanceAs (Decidable (_ ≤ _))

instance : IsTotal ConcernAgg mentionDesc :=
  ⟨fun a b => le_total b.mention_count a.mention_count⟩

instance : IsTrans ConcernAgg mentionDesc :=
  ⟨fun _ _ _ h1 h2 => le_trans h2 h1⟩

/-- The concern aggregate, app.py lines 108-111:
`conc.groupby("concern", as_index=False).agg(mention_count=("mention_count",
"sum"), avg_sentiment=("avg_sentiment","mean")).sort_values("mention_count",
ascending=False)`.  `groupby` (default `sort=True`) produces one row per
distinct concern label, keys ascending; each group contributes the sum of
its mention counts and the unweighted mean of its per-row sentiments; the
result is then re-sorted descending by `mention_count`. -/
def concernAggregate (conc : List ConcernRecord) : List ConcernAgg :=
  let keys := List.insertionSort (· ≤ ·) ((conc.map (fun r => r.concern)).dedup)
  let rows := keys.map (fun c =>
    let grp := conc.filter (fun r => r.concern == c)
    { concern := c
      mention_count := (grp.map (fun r => r.mention_count)).sum
      avg_sentiment := listMean (grp.map (fun r => r.avg_sentiment)) : ConcernAgg })
  List.insertionSort mentionDesc rows

/-- One recommendation string (app.py lines 122-135).  Each constructor is
one of the four templated rule strings, carrying the values interpolated
into the template, plus the fallback string of line 135. -/
inductive Recommendation where
  | rule1 (zip city state : String) (sales : ℤ)
  | rule2 (concern : String)
  | rule3
  | rule4
  | fallback
deriving DecidableEq, Repr

/-- Condition of rule 3, app.py line 129:
`(df["charging_stations"].mean() < 80) and (df["median_income"].mean() > 80000)`.
On an empty table both means are `NaN` and every `NaN` comparison is false
in Python, hence the explicit nonemptiness conjunct. -/
def rule3Cond (df : List GeoRecord) : Prop :=
  df ≠ [] ∧ listMean (df.map (fun r => r.charging_stations)) < 80 ∧
    listMean (df.map (fun r => r.median_income)) > 80000

instance : DecidablePred rule3Cond := fun df => by
  unfold rule3Cond; infer_instance

/-- Condition of rule 4, app.py line 131: `df["ev_share"].mean() < 0.12`;
false on an empty table because `NaN < 0.12` is false. -/
def rule4Cond (df : List GeoRecord) : Prop :=
  df ≠ [] ∧ listMean (df.map (fun r => r.ev_share)) < 12 / 100

instance : DecidablePred rule4Cond := fun df => by
  unfold rule4Cond; infer_instance

/-- Rule 1, app.py lines 123-125: if the top-K table is nonempty, emit one
string naming the first row's ZIP, city, state and truncated predicted
sales. -/
def rule1Recs (df : List GeoRecord) (k : ℕ) : List Recommendation :=
  match top_df df k with
  | [] => []
  | z :: _ => [Recommendation.rule1 z.zip z.city z.state (pyInt z.predicted_ev_sales_next_12m)]

/-- Rule 2, app.py lines 126-128: if the concern aggregate is nonempty, emit
one string naming the lower-cased top concern label. -/
def rule2Recs (conc : List ConcernRecord) : List Recommendation :=
  match concernAggregate conc with
  | [] => []
  | t :: _ => [Recommendation.rule2 t.concern.toLower]

/-- Rule 3, app.py lines 129-130. -/
def rule3Recs (df : List GeoRecord) : List Recommendation :=
  if rule3Cond df then [Recommendation.rule3] else []

/-- Rule 4, app.py lines 131-132. -/
def rule4Recs (df : List GeoRecord) : List Recommendation :=
  if rule4Cond df then [Recommendation.rule4] else []

/-- The recommendation list, app.py lines 122-135: the four rules append in
textual order, and line 134-135 replaces an empty list by the single
fallback string. -/
def recommendations (df : List GeoRecord) (conc : List ConcernRecord) (k : ℕ) :
    List Recommendation :=
  let recs := rule1Recs df k ++ rule2Recs conc ++ rule3Recs df ++ rule4Recs df
  if recs = [] then [Recommendation.fallback] else recs

/-- The two-row end-to-end example of spec §8 (fields the example leaves
unspecified — lat, lon, population — are irrelevant to every claim and set
to plausible Austin values). -/
def geoExample : List GeoRecord :=
  [ { zip := "78701", city := "Austin", state := "TX", lat := 30.27, lon := -97.74,
      population := 20000, median_income := 95000, charging_stations := 50,
      ev_share := 0.08, predicted_ev_sales_next_12m := 120 },
    { zip := "78702", city := "Austin", state := "TX", lat := 30.26, lon := -97.71,
      population := 25000, median_income := 60000, charging_stations := 90,
      ev_share := 0.15, predicted_ev_sales_next_12m := 80 } ]

/-- Index of each recommendation in the fixed rule order of app.py lines
122-135: rules 1-4 in source order, the fallback after all of them. -/
def recIdx : Recommendation → ℕ
  | Recommendation.rule1 _ _ _ _ => 1
  | Recommendation.rule2 _ => 2
  | Recommendation.rule3 => 3
  | Recommendation.rule4 => 4
  | Recommendation.fallback => 5

lemma insertionSort_eq_nil_iff {α : Type} (r : α → α → Prop) [DecidableRel r]
    (l : List α) : List.insertionSort r l = [] ↔ l = [] := by
  rw [← List.length_eq_zero, ← List.length_eq_zero,
    (List.perm_insertionSort r l).length_eq]

lemma rule1Recs_eq_nil_iff (df : List GeoRecord) (k : ℕ) :
    rule1Recs df k = [] ↔ top_df df k = [] := by
  unfold rule1Recs; split <;> simp_all

lemma filterRecords_sublist (geo : List GeoRecord) (s c : String) :
    (filterRecords geo s c).Sublist geo := by
  simp only [filterRecords]
  split_ifs <;>
    first
      | exact List.Sublist.refl _
      | exact List.filter_sublist _
      | exact (List.filter_sublist _).trans (List.filter_sublist _)

lemma filterRecords_all_city (geo : List GeoRecord) (s : String) :
    filterRecords geo s "ALL" =
      if s ≠ "ALL" then geo.filter (fun r => r.state == s) else geo := by
  simp [filterRecords]

/-- C8: with both wildcards the filter is the order-preserving identity
(app.py lines 40-43: neither branch executes). -/
theorem c8_wildcard_identity (geo : List GeoRecord) :
    filterRecords geo "ALL" "ALL" = geo := by
  simp [filterRecords]

/-- C9: the filtered table is a subset of the input in the original row
order (a sublist), and adding a concrete city filter on top of a state
filter never yields more rows than the state filter alone. -/
theorem c9_filter_subset_monotone (geo : List GeoRecord) (s c : String) :
    (filterRecords geo s c).Sublist geo ∧
      (filterRecords geo s c).length ≤ (filterRecords geo s "ALL").length := by
  refine ⟨filterRecords_sublist geo s c, ?_⟩
  rw [filterRecords_all_city]
  simp only [filterRecords]
  split_ifs <;>
    first
      | exact le_refl _
      | exact List.Sublist.length_le (List.filter_sublist _)

/-- C7: the cascading city options (app.py lines 29-32) are sorted
ascending, duplicate-free, and contain exactly the city names of the
records matching the selected state (all records under the wildcard). -/
theorem c7_city_options (geo : List GeoRecord) (s : String) :
    (city_options_raw geo s).Sorted (· ≤ ·) ∧
      (city_options_raw geo s).Nodup ∧
      (∀ c, c ∈ city_options_raw geo s ↔
        ∃ r, r ∈ geo ∧ (s = "ALL" ∨ r.state = s) ∧ r.city = c) := by
  by_cases hs : s = "ALL"
  · have he : city_options_raw geo s =
        List.insertionSort (· ≤ ·) ((geo.map (fun r => r.city)).dedup) := by
      simp [city_options_raw, hs]
    refine ⟨?_, ?_, ?_⟩
    · rw [he]; exact List.sorted_insertionSort _ _
    · rw [he]; exact ((List.perm_insertionSort _ _).nodup_iff).mpr (List.nodup_dedup _)
    · intro c
      rw [he, (List.perm_insertionSort _ _).mem_iff, List.mem_dedup, List.mem_map]
      simp [hs]
  · have he : city_options_raw geo s =
        List.insertionSort (· ≤ ·)
          (((geo.filter (fun r => r.state == s)).map (fun r => r.city)).dedup) := by
      simp [city_options_raw, hs]
    refine ⟨?_, ?_, ?_⟩
    · rw [he]; exact List.sorted_insertionSort _ _
    · rw [he]; exact ((List.perm_insertionSort _ _).nodup_iff).mpr (List.nodup_dedup _)
    · intro c
      rw [he, (List.perm_insertionSort _ _).mem_iff, List.mem_dedup, List.mem_map]
      simp [hs, List.mem_filter, and_assoc]

/-- C10: for any slider value `k` in [3,10] the top-K table is nonempty
exactly when the filtered table is, so rule 1's guard (app.py line 123) is
equivalent to nonemptiness of the filtered geo table, independent of `k`. -/
theorem c10_topk_nonempty (df : List GeoRecord) (k : ℕ)
    (h3 : 3 ≤ k) (h10 : k ≤ 10) :
    (top_df df k ≠ [] ↔ df ≠ []) ∧ (rule1Recs df k ≠ [] ↔ df ≠ []) := by
  have hk : ¬ k = 0 := by omega
  have h1 : top_df df k = [] ↔ df = [] := by
    simp [top_df, List.take_eq_nil_iff, hk, insertionSort_eq_nil_iff]
  exact ⟨not_congr h1, not_congr ((rule1Recs_eq_nil_iff df k).trans h1)⟩

/-- Witness for C10 at the spec §8 example and the slider minimum `k = 3`. -/
theorem c10_topk_nonempty_witness :
    (top_df geoExample 3 ≠ [] ↔ geoExample ≠ []) ∧
      (rule1Recs geoExample 3 ≠ [] ↔ geoExample ≠ []) :=
  c10_topk_nonempty geoExample 3 (by norm_num) (by norm_num)

lemma total_pred_sales_nil : total_pred_sales [] = 0 := by
  with_unfolding_all rfl

lemma top_df_nil (k : ℕ) : top_df [] k = [] := by
  simp [top_df]

lemma concernAggregate_nil : concernAggregate [] = [] := rfl

lemma recommendations_nil (k : ℕ) :
    recommendations [] [] k = [Recommendation.fallback] := by
  have h1 : rule1Recs [] k = [] := (rule1Recs_eq_nil_iff [] k).mpr (top_df_nil k)
  simp [recommendations, h1, rule2Recs, concernAggregate_nil, rule3Recs, rule4Recs,
    rule3Cond, rule4Cond]

/-- Counterexample to C1: on the spec §8 example data, the selection
state = "CA", city = "ALL" filters to the empty table, and the two summary
mean metrics (app.py lines 47-48, `int(Series.mean())`) fail there —
pandas yields `NaN` for the mean of an empty series and `int(NaN)` raises
`ValueError`, modelled as `none`. -/
theorem c1_counterexample :
    filterRecords geoExample "CA" "ALL" = [] ∧
      avg_income (filterRecords geoExample "CA" "ALL") = none ∧
      avg_stations (filterRecords geoExample "CA" "ALL") = none := by
  refine ⟨?_, ?_, ?_⟩ <;> with_unfolding_all rfl

/-- C1 as amended: the filter itself is total, and an empty filtered pair
of tables is a valid input for the top-K table, the concern aggregate and
the recommendation engine (rules 3 and 4 compare against `NaN` and do not
fire, so the fallback alone is emitted) and for the predicted-sales total
(the empty sum is 0); but the two mean summary metrics fail on the empty
filtered table. -/
theorem c1_empty_downstream (geo : List GeoRecord) (conc : List ConcernRecord)
    (s c : String) (k : ℕ)
    (hg : filterRecords geo s c = []) (hc : filterConcerns conc s c = []) :
    total_pred_sales (filterRecords geo s c) = 0 ∧
      avg_income (filterRecords geo s c) = none ∧
      avg_stations (filterRecords geo s c) = none ∧
      top_df (filterRecords geo s c) k = [] ∧
      concernAggregate (filterConcerns conc s c) = [] ∧
      recommendations (filterRecords geo s c) (filterConcerns conc s c) k =
        [Recommendation.fallback] := by
  rw [hg, hc]
  exact ⟨total_pred_sales_nil, rfl, rfl, top_df_nil k, concernAggregate_nil,
    recommendations_nil k⟩

/-- Witness for the amended C1 at the example data and the empty-yielding
selection state = "CA", city = "ALL". -/
theorem c1_empty_downstream_witness :
    total_pred_sales (filterRecords geoExample "CA" "ALL") = 0 ∧
      avg_income (filterRecords geoExample "CA" "ALL") = none ∧
      avg_stations (filterRecords geoExample "CA" "ALL") = none ∧
      top_df (filterRecords geoExample "CA" "ALL") 5 = [] ∧
      concernAggregate (filterConcerns [] "CA" "ALL") = [] ∧
      recommendations (filterRecords geoExample "CA" "ALL")
        (filterConcerns [] "CA" "ALL") 5 = [Recommendation.fallback] :=
  c1_empty_downstream geoExample [] "CA" "ALL" 5 (by with_unfolding_all rfl) rfl

set_option maxRecDepth 4000 in
/-- C3: the end-to-end example of spec §8: filtering the two Austin rows
with state = "TX", city = "ALL" retains both rows, the predicted-sales
total is 200, the top-ranked ZIP is 78701, rule 3 does not fire (mean
income 77500 is not greater than 80000) and rule 4 fires (mean EV share
0.115 < 0.12). -/
theorem c3_end_to_end :
    filterRecords geoExample "TX" "ALL" = geoExample ∧
      total_pred_sales (filterRecords geoExample "TX" "ALL") = 200 ∧
      ((top_df (filterRecords geoExample "TX" "ALL") 5).map
        (fun r => r.zip)).head? = some "78701" ∧
      ¬ rule3Cond (filterRecords geoExample "TX" "ALL") ∧
      rule4Cond (filterRecords geoExample "TX" "ALL") := by
  refine ⟨?_, ?_, ?_, ?_, ?_⟩
  · with_unfolding_all rfl
  · with_unfolding_all rfl
  · with_unfolding_all rfl
  · with_unfolding_all decide
  · with_unfolding_all decide

lemma rule1Recs_shape (df : List GeoRecord) (k : ℕ) :
    (top_df df k = [] ∧ rule1Recs df k = []) ∨
      ∃ z tl, top_df df k = z :: tl ∧
        rule1Recs df k =
          [Recommendation.rule1 z.zip z.city z.state (pyInt z.predicted_ev_sales_next_12m)] := by
  unfold rule1Recs
  split
  · exact Or.inl ⟨by assumption, rfl⟩
  · exact Or.inr ⟨_, _, by assumption, rfl⟩

lemma rule2Recs_shape (conc : List ConcernRecord) :
    (concernAggregate conc = [] ∧ rule2Recs conc = []) ∨
      ∃ t tl, concernAggregate conc = t :: tl ∧
        rule2Recs conc = [Recommendation.rule2 t.concern.toLower] := by
  unfold rule2Recs
  split
  · exact Or.inl ⟨by assumption, rfl⟩
  · exact Or.inr ⟨_, _, by assumption, rfl⟩

lemma rule3Recs_shape (df : List GeoRecord) :
    (rule3Cond df ∧ rule3Recs df = [Recommendation.rule3]) ∨
      (¬ rule3Cond df ∧ rule3Recs df = []) := by
  by_cases h : rule3Cond df <;> simp [rule3Recs, h]

lemma rule4Recs_shape (df : List GeoRecord) :
    (rule4Cond df ∧ rule4Recs df = [Recommendation.rule4]) ∨
      (¬ rule4Cond df ∧ rule4Recs df = []) := by
  by_cases h : rule4Cond df <;> simp [rule4Recs, h]

/-- C5: the fallback string (app.py line 135) is emitted exactly when none
of rules 1-4 fires, and then it is the only output; every firing rule is
emitted, and the emitted list is strictly ordered by rule number (rules in
the fixed order 1, 2, 3, 4, each at most once, the fallback never beside a
rule). -/
theorem c5_fallback_iff_and_order (df : List GeoRecord)
    (conc : List ConcernRecord) (k : ℕ) :
    (Recommendation.fallback ∈ recommendations df conc k ↔
      top_df df k = [] ∧ concernAggregate conc = [] ∧
        ¬ rule3Cond df ∧ ¬ rule4Cond df) ∧
      (Recommendation.fallback ∈ recommendations df conc k →
        recommendations df conc k = [Recommendation.fallback]) ∧
      ((∃ z c s n, Recommendation.rule1 z c s n ∈ recommendations df conc k) ↔
        top_df df k ≠ []) ∧
      ((∃ t, Recommendation.rule2 t ∈ recommendations df conc k) ↔
        concernAggregate conc ≠ []) ∧
      (Recommendation.rule3 ∈ recommendations df conc k ↔ rule3Cond df) ∧
      (Recommendation.rule4 ∈ recommendations df conc k ↔ rule4Cond df) ∧
      ((recommendations df conc k).map recIdx).Pairwise (· < ·) := by
  rcases rule1Recs_shape df k with ⟨ht, h1⟩ | ⟨z, tl, ht, h1⟩ <;>
    rcases rule2Recs_shape conc with ⟨ha, h2⟩ | ⟨t, tl2, ha, h2⟩ <;>
      rcases rule3Recs_shape df with ⟨hc3, h3⟩ | ⟨hc3, h3⟩ <;>
        rcases rule4Recs_shape df with ⟨hc4, h4⟩ | ⟨hc4, h4⟩ <;>
          simp [recommendations, h1, h2, h3, h4, ht, ha, hc3, hc4, recIdx]

/-- C4: for any slider value `k` in [3,10], rule 1 (app.py lines 123-125)
emits a string exactly when the top-K table is nonempty, and the ZIP it
names is the ZIP of the first row of the top-K table. -/
theorem c4_rule1_zip (df : List GeoRecord) (conc : List ConcernRecord)
    (k : ℕ) (h3 : 3 ≤ k) (h10 : k ≤ 10) :
    ((∃ z c s n, Recommendation.rule1 z c s n ∈ recommendations df conc k) ↔
      top_df df k ≠ []) ∧
      (∀ z c s n, Recommendation.rule1 z c s n ∈ recommendations df conc k →
        (top_df df k).head?.map (fun r => r.zip) = some z) := by
  rcases rule1Recs_shape df k with ⟨ht, h1⟩ | ⟨z, tl, ht, h1⟩ <;>
    rcases rule2Recs_shape conc with ⟨ha, h2⟩ | ⟨t, tl2, ha, h2⟩ <;>
      rcases rule3Recs_shape df with ⟨hc3, h3r⟩ | ⟨hc3, h3r⟩ <;>
        rcases rule4Recs_shape df with ⟨hc4, h4r⟩ | ⟨hc4, h4r⟩ <;>
          simp [recommendations, h1, h2, h3r, h4r, ht, recIdx] <;>
            (intros; subst_vars; rfl)

/-- Witness for C4 at the spec §8 example, no concern rows, and the default
slider value `k = 5`. -/
theorem c4_rule1_zip_witness :
    ((∃ z c s n, Recommendation.rule1 z c s n ∈ recommendations geoExample [] 5) ↔
      top_df geoExample 5 ≠ []) ∧
      (∀ z c s n, Recommendation.rule1 z c s n ∈ recommendations geoExample [] 5 →
        (top_df geoExample 5).head?.map (fun r => r.zip) = some z) :=
  c4_rule1_zip geoExample [] 5 (by norm_num) (by norm_num)

lemma sum_map_ite_zero : ∀ (ks : List String) {c0 : String}, c0 ∉ ks →
    ∀ n : ℤ, (ks.map (fun c => if c0 = c then n else 0)).sum = 0
  | [], _, _, _ => rfl
  | k :: ks, c0, h, n => by
    have h1 : ¬ c0 = k := fun hc => h (hc ▸ List.mem_cons_self k ks)
    have h2 : c0 ∉ ks := fun hm => h (List.mem_cons_of_mem _ hm)
    simp [h1, sum_map_ite_zero ks h2 n]

lemma sum_map_ite_mem : ∀ (ks : List String), ks.Nodup → ∀ {c0 : String}, c0 ∈ ks →
    ∀ n : ℤ, (ks.map (fun c => if c0 = c then n else 0)).sum = n
  | [], _, _, hc, _ => absurd hc (List.not_mem_nil _)
  | k :: ks, hnd, c0, hc, n => by
    rcases List.mem_cons.mp hc with h | h
    · subst h
      simp [sum_map_ite_zero ks (List.nodup_cons.mp hnd).1 n]
    · have h1 : ¬ c0 = k := by
        rintro rfl; exact (List.nodup_cons.mp hnd).1 h
      simp [h1, sum_map_ite_mem ks (List.nodup_cons.mp hnd).2 h n]

lemma sum_over_groups (ks : List String) (hnd : ks.Nodup) :
    ∀ l : List ConcernRecord, (∀ r ∈ l, r.concern ∈ ks) →
      (ks.map (fun c =>
        ((l.filter (fun r => r.concern == c)).map (fun r => r.mention_count)).sum)).sum
        = (l.map (fun r => r.mention_count)).sum := by
  intro l
  induction l with
  | nil => intro _; simp
  | cons r l ih =>
    intro hcov
    have hr : r.concern ∈ ks := hcov r (List.mem_cons_self r l)
    have hcov2 : ∀ x ∈ l, x.concern ∈ ks :=
      fun x hx => hcov x (List.mem_cons_of_mem r hx)
    have key : ∀ c : String,
        (((r :: l).filter (fun x => x.concern == c)).map (fun x => x.mention_count)).sum
          = (if r.concern = c then r.mention_count else 0)
            + ((l.filter (fun x => x.concern == c)).map (fun x => x.mention_count)).sum := by
      intro c
      by_cases h : r.concern = c <;> simp [List.filter_cons, h]
    simp only [key, List.sum_map_add, sum_map_ite_mem ks hnd hr, ih hcov2,
      List.map_cons, List.sum_cons]

/-- C6: the concern aggregate (app.py lines 108-111) has one row per
distinct concern label of the filtered input; each row carries the sum of
its group's mention counts and the unweighted arithmetic mean of its
group's per-row sentiment scores; rows are sorted descending by mention
count; and the mention-count total is conserved. -/
theorem c6_concern_aggregate (conc : List ConcernRecord) :
    ((concernAggregate conc).map (fun a => a.concern)).Perm
        ((conc.map (fun r => r.concern)).dedup) ∧
      (∀ row ∈ concernAggregate conc,
        row.mention_count =
          ((conc.filter (fun r => r.concern == row.concern)).map
            (fun r => r.mention_count)).sum ∧
          row.avg_sentiment =
            listMean ((conc.filter (fun r => r.concern == row.concern)).map
              (fun r => r.avg_sentiment))) ∧
      (concernAggregate conc).Pairwise
        (fun a b => b.mention_count ≤ a.mention_count) ∧
      ((concernAggregate conc).map (fun a => a.mention_count)).sum =
        (conc.map (fun r => r.mention_count)).sum := by
  have hunf : concernAggregate conc =
      List.insertionSort mentionDesc
        ((List.insertionSort (· ≤ ·) ((conc.map (fun r => r.concern)).dedup)).map
          (fun c =>
            { concern := c
              mention_count :=
                ((conc.filter (fun r => r.concern == c)).map
                  (fun r => r.mention_count)).sum
              avg_sentiment :=
                listMean ((conc.filter (fun r => r.concern == c)).map
                  (fun r => r.avg_sentiment)) : ConcernAgg })) := rfl
  have hperm : (concernAggregate conc).Perm
      ((List.insertionSort (· ≤ ·) ((conc.map (fun r => r.concern)).dedup)).map
        (fun c =>
          { concern := c
            mention_count :=
              ((conc.filter (fun r => r.concern == c)).map
                (fun r => r.mention_count)).sum
            avg_sentiment :=
              listMean ((conc.filter (fun r => r.concern == c)).map
                (fun r => r.avg_sentiment)) : ConcernAgg })) := by
    rw [hunf]; exact List.perm_insertionSort _ _
  have hkeys : (List.insertionSort (α := String) (· ≤ ·)
      ((conc.map (fun r => r.concern)).dedup)).Perm
        ((conc.map (fun r => r.concern)).dedup) := List.perm_insertionSort _ _
  refine ⟨?_, ?_, ?_, ?_⟩
  · refine ((hperm.map (fun a => a.concern)).trans ?_)
    rw [List.map_map]
    show (List.map (fun c : String => c)
      (List.insertionSort (· ≤ ·) ((conc.map (fun r => r.concern)).dedup))).Perm
        ((conc.map (fun r => r.concern)).dedup)
    rw [List.map_id']
    exact hkeys
  · intro row hrow
    obtain ⟨c, hc, rfl⟩ := List.mem_map.mp (hperm.mem_iff.mp hrow)
    exact ⟨rfl, rfl⟩
  · rw [hunf]
    exact List.sorted_insertionSort mentionDesc _
  · refine ((hperm.map (fun a => a.mention_count)).sum_eq).trans ?_
    rw [List.map_map]
    refine ((hkeys.map _).sum_eq).trans ?_
    exact sum_over_groups _ (List.nodup_dedup _) conc
      (fun r hr => List.mem_dedup.mpr (List.mem_map_of_mem _ hr))
